import Mathlib

/-!
# caclient.Transport: certificate lifecycle manager

A shallow embedding of `caclient/transport.go`.

The manager talks to collaborators that live outside the package (the key
provider, the certificate authority, the trust stores, the backoff policy, the
wall clock).  Their state is an arbitrary type `W`; each of their operations is
a field of `Collaborators W`, a function that reads and updates `W`.  The
theorems below are stated for all `W` and all collaborator behaviours unless
they evaluate the code at one concrete input.

Every collaborator call made by the manager is appended to a log, so that
statements about which calls were made, and how often, are statements about
that log.  Calls to `tr.logger` have no effect on the manager and are left out.
-/

namespace Caclient

/-! ## Time -/

/-! A `time.Time` instant is an integer, the nanoseconds on the wall clock; a
`time.Duration` is an integer in the signed 64-bit range, a count of
nanoseconds. -/

/-- The smallest `time.Duration`. -/
def minDuration : Int := -(2 ^ 63)

/-- The largest `time.Duration`. -/
def maxDuration : Int := 2 ^ 63 - 1

/-- `t.After(u)` of package `time`. -/
def Time.After (t u : Int) : Bool := decide (u < t)

/-- `t.Sub(u)` of package `time`: the difference `t - u`, replaced by the largest
(smallest) duration when it does not fit in a `Duration`. -/
def Time.Sub (t u : Int) : Int :=
  if maxDuration < t - u then maxDuration
  else if t - u < minDuration then minDuration
  else t - u

/-- Two's-complement wrap of an integer to 64 bits. -/
def wrapInt64 (z : Int) : Int := (z + 2 ^ 63) % 2 ^ 64 - 2 ^ 63

/-- Go's `/` on two `time.Duration` values with a non-zero divisor: the quotient
truncated toward zero, in 64-bit two's complement. -/
def Duration.div (x y : Int) : Int := wrapInt64 (Int.tdiv x y)

/-! ## Data -/

/-- A Go `error` value.  `errors.Is(err, kp.ErrCertificateUnavailable)` holds for
the sentinel itself and for a collaborator error that wraps it. -/
inductive GoError where
  /-- The sentinel `kp.ErrCertificateUnavailable`. -/
  | ErrCertificateUnavailable
  /-- The value of `errors.New("RefreshKeys timeout")`. -/
  | RefreshKeysTimeout
  /-- Any other error a collaborator returns; `wrapsUnavailable` says whether its
  chain contains `kp.ErrCertificateUnavailable`. -/
  | collaborator (code : Nat) (wrapsUnavailable : Bool)
  deriving DecidableEq, Repr

/-- `errors.Is(err, kp.ErrCertificateUnavailable)`. -/
def GoError.IsCertificateUnavailable : GoError → Bool
  | .ErrCertificateUnavailable => true
  | .RefreshKeysTimeout => false
  | .collaborator _ w => w

/-- The fields of an `x509.Certificate` that the manager reads. -/
structure Certificate where
  NotBefore : Int
  NotAfter : Int
  deriving DecidableEq, Repr

/-- A `tls.Certificate`: the DER chain and a handle on the private key.  The
zero value has an empty chain and no key. -/
structure TLSCertificate where
  Certificate : List (List Nat)
  PrivateKey : Option Nat
  deriving DecidableEq, Repr

/-- The zero value of `tls.Certificate`. -/
def TLSCertificate.zero : TLSCertificate := { Certificate := [], PrivateKey := none }

/-- A `csr.KeyRequest`: algorithm and size. -/
structure KeyRequest where
  A : String
  S : Nat
  deriving DecidableEq, Repr

/-- The part of `csr.CertificateRequest` read here; `KeyRequest = none` is the
nil pointer. -/
structure CertificateRequest where
  CN : String
  Hosts : List String
  KeyRequest : Option KeyRequest
  deriving DecidableEq, Repr

/-- The `core.Identity` of the workload. -/
structure Identity where
  Request : CertificateRequest
  deriving DecidableEq, Repr

/-- The fields of `Transport` that are plain values.  `Provider`, `CA`,
`TrustStore`, `ClientTrustStore` and `Backoff` are references to collaborators,
whose state is the world `W`. -/
structure Transport where
  CertRefreshDurationRate : Int
  Identity : Identity
  RevokeSoftFail : Bool
  manualRevoke : Bool
  deriving DecidableEq, Repr

/-- One collaborator call together with what it returned. -/
inductive Event where
  | Ready (r : Bool)
  | Load (err : Option GoError)
  | Generate (algo : String) (size : Nat) (err : Option GoError)
  | CertificateRequest (err : Option GoError)
  | SignCSR (csr : List Nat) (err : Option GoError)
  | SetCertificatePEM (pem : List Nat) (err : Option GoError)
  | Persistent (r : Bool)
  | Store (err : Option GoError)
  | X509KeyPair (err : Option GoError)
  | Certificate (cert : Option Certificate)
  | SignalFailure (err : GoError) (r : Bool)
  | Now (t : Int)
  | BackoffDuration (d : Int)
  | BackoffReset
  /-- Entry into `RefreshKeys`. -/
  | RefreshKeys
  deriving DecidableEq, Repr

/-- The collaborators of the manager, as operations on their joint state `W`.
A Go result pair `(value, error)` is kept as a pair; `none` is the nil error. -/
structure Collaborators (W : Type) where
  /-- `kp.KeyProvider.Ready`. -/
  Ready : W → Bool × W
  /-- `kp.KeyProvider.Load`. -/
  Load : W → Option GoError × W
  /-- `kp.KeyProvider.Generate(algo, size)`. -/
  Generate : String → Nat → W → Option GoError × W
  /-- `kp.KeyProvider.CertificateRequest(req)`. -/
  CertificateRequest : CertificateRequest → W → (List Nat × Option GoError) × W
  /-- `ca.CertificateAuthority.SignCSR(csrPEM)`. -/
  SignCSR : List Nat → W → (List Nat × Option GoError) × W
  /-- `kp.KeyProvider.SetCertificatePEM(certPEM)`. -/
  SetCertificatePEM : List Nat → W → Option GoError × W
  /-- `kp.KeyProvider.Persistent`. -/
  Persistent : W → Bool × W
  /-- `kp.KeyProvider.Store`. -/
  Store : W → Option GoError × W
  /-- `kp.KeyProvider.X509KeyPair`. -/
  X509KeyPair : W → (TLSCertificate × Option GoError) × W
  /-- `kp.KeyProvider.Certificate`; `none` is the nil pointer. -/
  Certificate : W → Option Certificate × W
  /-- `kp.KeyProvider.SignalFailure(err)`. -/
  SignalFailure : GoError → W → Bool × W
  /-- `backoff.Backoff.Duration`. -/
  BackoffDuration : W → Int × W
  /-- `backoff.Backoff.Reset`. -/
  BackoffReset : W → W
  /-- `time.Now`. -/
  Now : W → Int × W
  /-- `csr.NewKeyRequest()`, the default key request. -/
  NewKeyRequest : KeyRequest
  /-- `roots.TrustStore.Pool` of `tr.TrustStore`. -/
  TrustStorePool : W → List Nat
  /-- `roots.TrustStore.Pool` of `tr.ClientTrustStore`. -/
  ClientTrustStorePool : W → List Nat
  /-- `core.CipherSuites`. -/
  CipherSuites : List Nat
  /-- Whether, in `RefreshKeys`, the five-second timer fires before the spawned
  refresh delivers its result; the arguments are the world when `RefreshKeys`
  starts and the world when the refresh delivers. -/
  timerFiresFirst : W → W → Bool

/-- The manager together with the world of its collaborators and the log of the
calls made so far. -/
structure State (W : Type) where
  tr : Transport
  world : W
  log : List Event
  deriving DecidableEq

/-- How a call ends: it returns a value, or a run-time panic unwinds it.  A
panic that is not recovered ends the process. -/
inductive Outcome (α σ : Type) where
  | ret (a : α) (s : σ)
  | panic (s : σ)
  deriving DecidableEq

/-- The state in which a call ended. -/
def Outcome.state {α σ : Type} : Outcome α σ → σ
  | .ret _ s => s
  | .panic s => s

/-- The value a call returned, if it returned. -/
def Outcome.value {α σ : Type} : Outcome α σ → Option α
  | .ret a _ => some a
  | .panic _ => none

variable {W : Type}

/-- Append one event to the log and install the new world. -/
def State.record (s : State W) (w : W) (e : Event) : State W :=
  { s with world := w, log := s.log ++ [e] }

/-! ## Lifespan and ManualRevoke -/

/-- `Transport.Lifespan` (transport.go, lines 106-127). -/
def Lifespan (env : Collaborators W) (s : State W) :
    Outcome (Int × Int) (State W) :=
  let c := env.Certificate s.world
  let s1 := s.record c.2 (Event.Certificate c.1)
  match c.1 with
  | none => .ret (0, 0) s1
  | some cert =>
    let n := env.Now s1.world
    let now := n.1
    let s2 := s1.record n.2 (Event.Now now)
    if Time.After now cert.NotAfter then .ret (0, 0) s2
    else
      let remain := Time.Sub cert.NotAfter now
      let certLong := Time.Sub cert.NotAfter cert.NotBefore
      if s2.tr.CertRefreshDurationRate = 0 then .panic s2
      else
        let ava := Duration.div certLong s2.tr.CertRefreshDurationRate
        if s2.tr.manualRevoke then
          .ret (0, 0) { s2 with tr := { s2.tr with manualRevoke := false } }
        else .ret (remain, ava) s2

/-- `Transport.ManualRevoke` (transport.go, lines 130-132). -/
def ManualRevoke (s : State W) : State W :=
  { s with tr := { s.tr with manualRevoke := true } }

/-! ## The refresh protocol -/

/-- What `RefreshKeys`, `AsyncRefreshKeys` and `AutoUpdate` return: the error,
`none` for the nil error. -/
abbrev RefreshOutcome (W : Type) := Outcome (Option GoError) (State W)

/-- Lines 151-170 of `AsyncRefreshKeys`: bring the provider to a loaded or
freshly generated key.  The first component is the error with which
`AsyncRefreshKeys` returns at line 166, `none` when it goes on to line 173. -/
def loadOrGenerate (env : Collaborators W) (s : State W) : Option GoError × State W :=
  let r := env.Ready s.world
  let s1 := s.record r.2 (Event.Ready r.1)
  if r.1 then (none, s1)
  else
    let l := env.Load s1.world
    let s2 := s1.record l.2 (Event.Load l.1)
    match l.1 with
    | none => (none, s2)
    | some err =>
      if err.IsCertificateUnavailable then (none, s2)
      else
        let kr := match s2.tr.Identity.Request.KeyRequest with
          | some kr => kr
          | none => env.NewKeyRequest
        let g := env.Generate kr.A kr.S s2.world
        (g.1, s2.record g.2 (Event.Generate kr.A kr.S g.1))

/-- The failure handling repeated at lines 180-183, 190-194, 201-204 and
213-216: ask the provider whether the failure is retriable; if so return what
`tr.RefreshKeys()` returns, otherwise return the error. -/
def onFailure (env : Collaborators W) (refresh : State W → Option (RefreshOutcome W))
    (err : GoError) (s : State W) : Option (RefreshOutcome W) :=
  let f := env.SignalFailure err s.world
  let s1 := s.record f.2 (Event.SignalFailure err f.1)
  if f.1 then refresh s1 else some (.ret (some err) s1)

/-- Lines 175-218 of `AsyncRefreshKeys`: build the CSR, have it signed, install
the certificate and store it. -/
def signAndStore (env : Collaborators W) (refresh : State W → Option (RefreshOutcome W))
    (s : State W) : Option (RefreshOutcome W) :=
  let q := env.CertificateRequest s.tr.Identity.Request s.world
  let s1 := s.record q.2 (Event.CertificateRequest q.1.2)
  match q.1.2 with
  | some err => onFailure env refresh err s1
  | none =>
    let c := env.SignCSR q.1.1 s1.world
    let s2 := s1.record c.2 (Event.SignCSR q.1.1 c.1.2)
    match c.1.2 with
    | some err => onFailure env refresh err s2
    | none =>
      let p := env.SetCertificatePEM c.1.1 s2.world
      let s3 := s2.record p.2 (Event.SetCertificatePEM c.1.1 p.1)
      match p.1 with
      | some err => onFailure env refresh err s3
      | none =>
        let b := env.Persistent s3.world
        let s4 := s3.record b.2 (Event.Persistent b.1)
        if b.1 then
          let t := env.Store s4.world
          let s5 := s4.record t.2 (Event.Store t.1)
          match t.1 with
          | some err => onFailure env refresh err s5
          | none => some (.ret none s5)
        else some (.ret none s4)

/-- `Transport.AsyncRefreshKeys` (transport.go, lines 150-221), with the call
`tr.RefreshKeys()` of its failure branches passed in as `refresh`.  A panic in
`Lifespan` is not recovered here. -/
def AsyncRefreshKeysWith (env : Collaborators W)
    (refresh : State W → Option (RefreshOutcome W)) (s : State W) :
    Option (RefreshOutcome W) :=
  match loadOrGenerate env s with
  | (some err, s1) => some (.ret (some err) s1)
  | (none, s1) =>
    match Lifespan env s1 with
    | .panic s2 => some (.panic s2)
    | .ret (remain, lifespan) s2 =>
      if remain < lifespan ∨ lifespan ≤ 0 then signAndStore env refresh s2
      else some (.ret none s2)

/-- `Transport.RefreshKeys` (transport.go, lines 135-147).  The recursion
through `AsyncRefreshKeys` is bounded by `fuel`; `none` means the fuel ran out.
The spawned refresh is run to its end and `timerFiresFirst` then decides
which branch of the `select` the caller takes; on the timer branch the effects
of the abandoned refresh are counted as done.  A panic in the spawned goroutine
cannot be recovered by the caller and is passed on as `panic`. -/
def RefreshKeys (env : Collaborators W) : Nat → State W → Option (RefreshOutcome W)
  | 0, _ => none
  | fuel + 1, s =>
    match AsyncRefreshKeysWith env (fun s1 => RefreshKeys env fuel s1)
        (s.record s.world Event.RefreshKeys) with
    | none => none
    | some (.panic s1) => some (.panic s1)
    | some (.ret err s1) =>
      if env.timerFiresFirst s.world s1.world then
        some (.ret (some GoError.RefreshKeysTimeout) s1)
      else some (.ret err s1)

/-- `Transport.AsyncRefreshKeys` (transport.go, lines 150-221). -/
def AsyncRefreshKeys (env : Collaborators W) (fuel : Nat) (s : State W) :
    Option (RefreshOutcome W) :=
  AsyncRefreshKeysWith env (fun s1 => RefreshKeys env fuel s1) s

/-! ## GetCertificate and AutoUpdate -/

/-- What `GetCertificate` returns: the pointer to the certificate (`none` for
nil) and the error (`none` for nil). -/
abbrev CertificateOutcome (W : Type) :=
  Outcome (Option TLSCertificate × Option GoError) (State W)

/-- Lines 235-241 of `GetCertificate`: the error of `X509KeyPair` is logged and
`&cert, nil` is returned. -/
def keypair (env : Collaborators W) (s : State W) : Option (CertificateOutcome W) :=
  let k := env.X509KeyPair s.world
  some (.ret (some k.1.1, none) (s.record k.2 (Event.X509KeyPair k.1.2)))

/-- `Transport.GetCertificate` (transport.go, lines 224-242). -/
def GetCertificate (env : Collaborators W) (fuel : Nat) (s : State W) :
    Option (CertificateOutcome W) :=
  let r := env.Ready s.world
  let s1 := s.record r.2 (Event.Ready r.1)
  if r.1 then keypair env s1
  else
    match RefreshKeys env fuel s1 with
    | none => none
    | some (.panic s2) => some (.panic s2)
    | some (.ret (some err) s2) => some (.ret (none, some err) s2)
    | some (.ret none s2) => keypair env s2

/-- `Transport.AutoUpdate` (transport.go, lines 245-266).  A panic raised by
`Lifespan` in this goroutine is recovered by the deferred function and the
tick returns the nil error; a panic of the goroutine spawned by `RefreshKeys`
is out of its reach. -/
def AutoUpdate (env : Collaborators W) (fuel : Nat) (s : State W) :
    Option (RefreshOutcome W) :=
  match Lifespan env s with
  | .panic s1 => some (.ret none s1)
  | .ret (remain, nextUpdateAt) s1 =>
    if remain > nextUpdateAt then some (.ret none s1)
    else
      match RefreshKeys env fuel s1 with
      | none => none
      | some (.panic s2) => some (.panic s2)
      | some (.ret (some err) s2) =>
        let d := env.BackoffDuration s2.world
        some (.ret (some err) (s2.record d.2 (Event.BackoffDuration d.1)))
      | some (.ret none s2) =>
        some (.ret none (s2.record (env.BackoffReset s2.world) Event.BackoffReset))

/-! ## TLS configurations -/

/-- `tls.ClientAuthType`, in the order of its constants; the zero value is
`NoClientCert`. -/
inductive ClientAuthType where
  | NoClientCert
  | RequestClientCert
  | RequireAnyClientCert
  | VerifyClientCertIfGiven
  | RequireAndVerifyClientCert
  deriving DecidableEq, Repr

/-- `tls.VersionTLS12`. -/
def VersionTLS12 : Nat := 0x0303

/-- The fields of `tls.Config` that the builders set.  A nil function or pool is
`none`; a certificate callback is run with the fuel of the refresh it may
trigger.  `GetConfigForClient` is given the world of the handshake. -/
structure TLSConfig (W : Type) where
  GetCertificate : Option (Nat → State W → Option (CertificateOutcome W))
  GetClientCertificate : Option (Nat → State W → Option (CertificateOutcome W))
  GetConfigForClient : Option (W → Option (TLSConfig W) × Option GoError)
  RootCAs : Option (List Nat)
  ClientCAs : Option (List Nat)
  ServerName : String
  ClientAuth : ClientAuthType
  CipherSuites : List Nat
  MinVersion : Nat

/-- The zero value of `tls.Config`. -/
def TLSConfig.zero : TLSConfig W :=
  { GetCertificate := none, GetClientCertificate := none, GetConfigForClient := none,
    RootCAs := none, ClientCAs := none, ServerName := "",
    ClientAuth := ClientAuthType.NoClientCert, CipherSuites := [], MinVersion := 0 }

/-- The certificate callback of the three builders: `tr.GetCertificate()`, its
error logged and passed on with a nil certificate. -/
def certificateCallback (env : Collaborators W) (fuel : Nat) (s : State W) :
    Option (CertificateOutcome W) :=
  match GetCertificate env fuel s with
  | none => none
  | some (.panic s1) => some (.panic s1)
  | some (.ret (_, some err) s1) => some (.ret (none, some err) s1)
  | some (.ret (cert, none) s1) => some (.ret (cert, none) s1)

/-- `Transport.TLSClientAuthClientConfig` (transport.go, lines 44-59). -/
def TLSClientAuthClientConfig (env : Collaborators W) (w : W) (host : String) :
    TLSConfig W × Option GoError :=
  ({ TLSConfig.zero with
      GetClientCertificate := some (certificateCallback env)
      RootCAs := some (env.TrustStorePool w)
      ServerName := host
      CipherSuites := env.CipherSuites
      MinVersion := VersionTLS12 }, none)

/-- `Transport.TLSClientAuthServerConfig` (transport.go, lines 62-84). -/
def TLSClientAuthServerConfig (env : Collaborators W) :
    TLSConfig W × Option GoError :=
  ({ TLSConfig.zero with
      GetConfigForClient := some (fun w =>
        (some { TLSConfig.zero with
            GetCertificate := some (certificateCallback env)
            RootCAs := some (env.TrustStorePool w)
            ClientCAs := some (env.ClientTrustStorePool w) }, none))
      ClientAuth := ClientAuthType.RequireAndVerifyClientCert
      CipherSuites := env.CipherSuites
      MinVersion := VersionTLS12 }, none)

/-- `Transport.TLSServerConfig` (transport.go, lines 87-103). -/
def TLSServerConfig (env : Collaborators W) (w : W) : TLSConfig W × Option GoError :=
  ({ TLSConfig.zero with
      GetCertificate := some (certificateCallback env)
      RootCAs := some (env.TrustStorePool w)
      ClientCAs := some (env.ClientTrustStorePool w)
      CipherSuites := env.CipherSuites
      MinVersion := VersionTLS12
      ClientAuth := ClientAuthType.VerifyClientCertIfGiven }, none)

/-- The configuration `crypto/tls` handshakes with when a server is set up with
`cfg`: by the documentation of `tls.Config.GetConfigForClient`, a non-nil
configuration returned by the callback is used for the connection in place of
`cfg`; with a nil callback or a nil result `cfg` itself is used. -/
def handshakeConfig (cfg : TLSConfig W) (w : W) : TLSConfig W :=
  match cfg.GetConfigForClient with
  | none => cfg
  | some f =>
    match (f w).1 with
    | some c => c
    | none => cfg

/-! ## Observations used in the statements -/

/-- The certificate that `Lifespan` reads in state `s`. -/
def currentCertificate (env : Collaborators W) (s : State W) : Option Certificate :=
  (env.Certificate s.world).1

/-- The clock reading that `Lifespan` takes in state `s`, right after it has
read the certificate. -/
def currentTime (env : Collaborators W) (s : State W) : Int :=
  (env.Now (env.Certificate s.world).2).1

/-- The state of `Lifespan` after it has read the certificate and the clock. -/
def afterReads (env : Collaborators W) (s : State W) : State W :=
  ((s.record (env.Certificate s.world).2 (Event.Certificate (currentCertificate env s))).record
    (env.Now (env.Certificate s.world).2).2 (Event.Now (currentTime env s)))

/-- The events that a run ending in state `t` appended to the log of `s`. -/
def newEvents (s t : State W) : List Event := t.log.drop s.log.length

/-! ## An in-memory provider, authority, backoff and clock

Used to evaluate the code at concrete inputs. -/

/-- The state of the in-memory collaborators. -/
structure FakeWorld where
  /-- The wall clock. -/
  clock : Int
  /-- What `Ready` answers. -/
  ready : Bool
  /-- The certificate the provider holds. -/
  cert : Option Certificate
  /-- The certificate the authority issues next. -/
  issued : Certificate
  /-- The errors the operations are set to return. -/
  loadErr : Option GoError
  csrErr : Option GoError
  signErr : Option GoError
  setErr : Option GoError
  storeErr : Option GoError
  keyPairErr : Option GoError
  /-- What `SignalFailure` answers. -/
  retriable : Bool
  persistent : Bool
  /-- The number of `Duration` calls since the last `Reset`. -/
  attempts : Nat
  deriving DecidableEq, Repr

/-- The in-memory collaborators.  The provider installs the issued certificate
on `SetCertificatePEM` and builds its key pair from the certificate it holds. -/
def fakeEnv : Collaborators FakeWorld where
  Ready w := (w.ready, w)
  Load w := (w.loadErr, w)
  Generate _ _ w := (none, w)
  CertificateRequest _ w :=
    match w.csrErr with
    | some e => (([], some e), w)
    | none => (([67], none), w)
  SignCSR _ w :=
    match w.signErr with
    | some e => (([], some e), w)
    | none => (([80], none), w)
  SetCertificatePEM _ w :=
    match w.setErr with
    | some e => (some e, w)
    | none => (none, { w with cert := some w.issued, ready := true })
  Persistent w := (w.persistent, w)
  Store w := (w.storeErr, w)
  X509KeyPair w :=
    match w.keyPairErr, w.cert with
    | some e, _ => ((TLSCertificate.zero, some e), w)
    | none, none => ((TLSCertificate.zero, some (GoError.collaborator 1 false)), w)
    | none, some c =>
      (({ Certificate := [[c.NotBefore.toNat, c.NotAfter.toNat]], PrivateKey := some 1 },
        none), w)
  Certificate w := (w.cert, w)
  SignalFailure _ w := (w.retriable, w)
  BackoffDuration w := (1000000000 * 2 ^ w.attempts, { w with attempts := w.attempts + 1 })
  BackoffReset w := { w with attempts := 0 }
  Now w := (w.clock, w)
  NewKeyRequest := { A := "ecdsa", S := 256 }
  TrustStorePool _ := [1]
  ClientTrustStorePool _ := [2]
  CipherSuites := [0xc02b, 0xc02f]
  timerFiresFirst _ _ := false

/-- A transport with refresh rate 2 and no manual revoke pending. -/
def fakeTransport : Transport :=
  { CertRefreshDurationRate := 2
    Identity := { Request := { CN := "server1", Hosts := ["supreme"], KeyRequest := none } }
    RevokeSoftFail := false
    manualRevoke := false }

/-- A ready provider holding a certificate valid from 0 to 100, at time 10. -/
def readyWorld : FakeWorld :=
  { clock := 10, ready := true, cert := some { NotBefore := 0, NotAfter := 100 },
    issued := { NotBefore := 10, NotAfter := 110 },
    loadErr := none, csrErr := none, signErr := none, setErr := none, storeErr := none,
    keyPairErr := none, retriable := false, persistent := true, attempts := 0 }

/-- The manager over the in-memory collaborators in world `w`, with an empty log. -/
def fakeState (w : FakeWorld) : State FakeWorld :=
  { tr := fakeTransport, world := w, log := [] }


/-! ## Observations on the refresh protocol -/

/-- The state in which `AsyncRefreshKeys`, entered in state `s`, reaches line 175
(the signing branch): the key was loaded or generated without error, `Lifespan`
returned, and `remain < lifespan || lifespan <= 0` held.  `none` when the run
does not get there. -/
def atSigning (env : Collaborators W) (s : State W) : Option (State W) :=
  match loadOrGenerate env s with
  | (some _, _) => none
  | (none, s1) =>
    match Lifespan env s1 with
    | .panic _ => none
    | .ret (remain, lifespan) s2 =>
      if remain < lifespan ∨ lifespan ≤ 0 then some s2 else none

/-- What `Provider.CertificateRequest` returns at line 177, called in state `s`. -/
def csrResult (env : Collaborators W) (s : State W) : (List Nat × Option GoError) × W :=
  env.CertificateRequest s.tr.Identity.Request s.world

/-- What `CA.SignCSR` returns at line 188 when the signing branch starts in `s`. -/
def signResult (env : Collaborators W) (s : State W) : (List Nat × Option GoError) × W :=
  env.SignCSR (csrResult env s).1.1 (csrResult env s).2

/-- What `Provider.SetCertificatePEM` returns at line 198 when the signing branch
starts in `s`. -/
def setResult (env : Collaborators W) (s : State W) : Option GoError × W :=
  env.SetCertificatePEM (signResult env s).1.1 (signResult env s).2

/-- What `Provider.Persistent` returns at line 207 when the signing branch starts
in `s`. -/
def persistentResult (env : Collaborators W) (s : State W) : Bool × W :=
  env.Persistent (setResult env s).2

/-- What `Provider.Store` returns at line 209 when the signing branch starts in
`s`. -/
def storeResult (env : Collaborators W) (s : State W) : Option GoError × W :=
  env.Store (persistentResult env s).2

/-- The calls `AsyncRefreshKeys` makes before the signing branch: the key loading
and generation, and the reads of `Lifespan`. -/
def Event.isPreparation : Event → Bool
  | .Ready _ => true
  | .Load _ => true
  | .Generate _ _ _ => true
  | .Certificate _ => true
  | .Now _ => true
  | _ => false

/-- Whether the event is an entry into `RefreshKeys`. -/
def Event.isEntry : Event → Bool
  | .RefreshKeys => true
  | _ => false

/-- Whether the event is a call of `Provider.SignalFailure` answered `true`, the
answer on which `AsyncRefreshKeys` calls `RefreshKeys` again. -/
def Event.isRetry : Event → Bool
  | .SignalFailure _ true => true
  | _ => false

/-- Whether the event is a call of the backoff policy. -/
def Event.isBackoff : Event → Bool
  | .BackoffDuration _ => true
  | .BackoffReset => true
  | _ => false

/-- A provider that is not ready and holds no certificate, with the backoff
policy three attempts in. -/
def emptyWorld : FakeWorld :=
  { readyWorld with ready := false, cert := none, attempts := 3 }

/-- The state in which a refresh of the in-memory collaborators, started in world
`w` with an empty log and an absent certificate, enters the signing branch. -/
def fakeSigningState (w : FakeWorld) : State FakeWorld :=
  { tr := fakeTransport, world := w,
    log := [Event.RefreshKeys, Event.Ready false, Event.Load none, Event.Certificate none] }

/-- The state in which `Lifespan` leaves the in-memory manager started in world
`w` with an empty log. -/
def fakeAfterLifespan (w : FakeWorld) : State FakeWorld :=
  (Lifespan fakeEnv (fakeState w)).state

/-- The state in which `RefreshKeys`, run after `Lifespan`, leaves the in-memory
manager started in world `w`. -/
def fakeAfterRefresh (w : FakeWorld) : State FakeWorld :=
  match RefreshKeys fakeEnv 1 (fakeAfterLifespan w) with
  | some o => o.state
  | none => fakeAfterLifespan w

/-- The two ways a part of `AsyncRefreshKeys`, started with log `log0`, can end
when its retry call is `refresh`: it ends on its own, having entered
`RefreshKeys` not at all and been told to retry not at all; or it has been told
to retry exactly once, by the call it made last, and ends as `refresh` ends. -/
def RefreshShape (refresh : State W → Option (RefreshOutcome W)) (log0 : List Event)
    (result : Option (RefreshOutcome W)) : Prop :=
  (∃ (o : RefreshOutcome W) (l : List Event), result = some o ∧ o.state.log = log0 ++ l
      ∧ l.countP Event.isEntry = 0 ∧ l.countP Event.isRetry = 0)
    ∨ (∃ (s1 : State W) (l : List Event), result = refresh s1 ∧ s1.log = log0 ++ l
      ∧ l.countP Event.isEntry = 0 ∧ l.countP Event.isRetry = 1)

/-- A ready provider holding a certificate valid from 2020-01-01 to
9999-12-31T23:59:59 UTC, read on 2026-11-02 (nanoseconds since the Unix epoch). -/
def farFutureWorld : FakeWorld :=
  { readyWorld with
    clock := 1793577600000000000
    cert := some { NotBefore := 1577836800000000000, NotAfter := 253402300799000000000 } }

/-! ## Arithmetic of durations -/

theorem Time.Sub_range (t u : Int) :
    minDuration ≤ Time.Sub t u ∧ Time.Sub t u ≤ maxDuration := by
  unfold Time.Sub minDuration maxDuration
  split
  · omega
  · split <;> omega

theorem Time.Sub_exact (t u : Int) (hlo : minDuration ≤ t - u) (hhi : t - u ≤ maxDuration) :
    Time.Sub t u = t - u := by
  unfold Time.Sub
  rw [if_neg (by omega), if_neg (by omega)]

theorem Time.Sub_nonneg (t u : Int) (h : u ≤ t) : 0 ≤ Time.Sub t u := by
  unfold Time.Sub minDuration maxDuration
  split
  · omega
  · split <;> omega

theorem Time.Sub_pos (t u : Int) (h : u < t) : 0 < Time.Sub t u := by
  unfold Time.Sub minDuration maxDuration
  split
  · omega
  · split <;> omega

theorem Time.Sub_le (t u : Int) (h : u ≤ t) : Time.Sub t u ≤ t - u := by
  unfold Time.Sub minDuration maxDuration
  split
  · omega
  · split <;> omega

theorem Time.Sub_saturated (t u : Int) (h : maxDuration < t - u) :
    Time.Sub t u = maxDuration := by
  unfold Time.Sub
  rw [if_pos h]

theorem one_le_tdiv (x y : Int) (hy : 1 ≤ y) (hxy : y ≤ x) : 1 ≤ Int.tdiv x y := by
  rw [Int.tdiv_eq_ediv (by omega) (by omega)]
  exact (Int.le_ediv_iff_mul_le (by omega)).mpr (by omega)

theorem wrapInt64_of_range (z : Int) (hlo : minDuration ≤ z) (hhi : z ≤ maxDuration) :
    wrapInt64 z = z := by
  unfold minDuration maxDuration at *
  unfold wrapInt64
  omega

theorem tdiv_bounds_of_nonneg (x y : Int) (hx : 0 ≤ x) (hy : 1 ≤ y) :
    0 ≤ Int.tdiv x y ∧ Int.tdiv x y ≤ x := by
  rw [Int.tdiv_eq_ediv hx (by omega)]
  exact ⟨Int.ediv_nonneg hx (by omega), Int.ediv_le_self _ hx⟩

theorem tdiv_bounds_of_nonpos (x y : Int) (hx : x ≤ 0) (hy : 1 ≤ y) :
    x ≤ Int.tdiv x y ∧ Int.tdiv x y ≤ 0 := by
  have h := tdiv_bounds_of_nonneg (-x) y (by omega) hy
  rw [Int.neg_tdiv] at h
  omega

/-- With a divisor of at least 1 the quotient of a duration needs no wrap. -/
theorem Duration.div_eq_tdiv (x y : Int) (hlo : minDuration ≤ x) (hhi : x ≤ maxDuration)
    (hy : 1 ≤ y) : Duration.div x y = Int.tdiv x y := by
  unfold Duration.div
  apply wrapInt64_of_range
  · rcases le_total 0 x with hx | hx
    · have := tdiv_bounds_of_nonneg x y hx hy
      unfold minDuration; omega
    · have := tdiv_bounds_of_nonpos x y hx hy
      omega
  · rcases le_total 0 x with hx | hx
    · have := tdiv_bounds_of_nonneg x y hx hy
      omega
    · have := tdiv_bounds_of_nonpos x y hx hy
      unfold maxDuration; omega

/-! ## Lifespan -/

theorem Lifespan_absent (env : Collaborators W) (s : State W)
    (hc : currentCertificate env s = none) :
    Lifespan env s
      = .ret (0, 0) (s.record (env.Certificate s.world).2 (Event.Certificate none)) := by
  unfold currentCertificate at hc
  unfold Lifespan
  simp only [hc]

theorem Lifespan_expired (env : Collaborators W) (s : State W) (cert : Certificate)
    (hc : currentCertificate env s = some cert) (hexp : cert.NotAfter < currentTime env s) :
    Lifespan env s = .ret (0, 0) (afterReads env s) := by
  unfold currentCertificate at hc
  unfold currentTime at hexp
  unfold Lifespan afterReads currentCertificate currentTime
  simp only [hc, Time.After, State.record]
  rw [if_pos (by simpa using hexp)]

theorem Lifespan_divZero (env : Collaborators W) (s : State W) (cert : Certificate)
    (hc : currentCertificate env s = some cert) (hlive : currentTime env s ≤ cert.NotAfter)
    (hrate : s.tr.CertRefreshDurationRate = 0) :
    Lifespan env s = .panic (afterReads env s) := by
  unfold currentCertificate at hc
  unfold currentTime at hlive
  unfold Lifespan afterReads currentCertificate currentTime
  simp only [hc, Time.After, State.record]
  rw [if_neg (by simpa using hlive), if_pos hrate]

theorem Lifespan_revoked (env : Collaborators W) (s : State W) (cert : Certificate)
    (hc : currentCertificate env s = some cert) (hlive : currentTime env s ≤ cert.NotAfter)
    (hrate : s.tr.CertRefreshDurationRate ≠ 0) (hflag : s.tr.manualRevoke = true) :
    Lifespan env s
      = .ret (0, 0) { afterReads env s with tr := { s.tr with manualRevoke := false } } := by
  unfold currentCertificate at hc
  unfold currentTime at hlive
  unfold Lifespan afterReads currentCertificate currentTime
  simp only [hc, Time.After, State.record]
  rw [if_neg (by simpa using hlive), if_neg hrate, if_pos hflag]

theorem Lifespan_live (env : Collaborators W) (s : State W) (cert : Certificate)
    (hc : currentCertificate env s = some cert) (hlive : currentTime env s ≤ cert.NotAfter)
    (hrate : s.tr.CertRefreshDurationRate ≠ 0) (hflag : s.tr.manualRevoke = false) :
    Lifespan env s
      = .ret (Time.Sub cert.NotAfter (currentTime env s),
          Duration.div (Time.Sub cert.NotAfter cert.NotBefore) s.tr.CertRefreshDurationRate)
          (afterReads env s) := by
  unfold currentCertificate at hc
  unfold currentTime at hlive
  unfold Lifespan afterReads currentCertificate currentTime
  simp only [hc, Time.After, State.record]
  rw [if_neg (by simpa using hlive), if_neg hrate, if_neg (by simp [hflag])]

/-! ## Claims about Lifespan and ManualRevoke -/

/-- C5, as stated, fails at the boundary: with a certificate valid from 0 to 100,
refresh rate 2, no manual revoke pending and the clock at exactly 100
(`now == notAfter`), `Lifespan` returns `(0, 50)`, not `(0, 0)`. -/
theorem C5_boundary_counterexample :
    currentCertificate fakeEnv (fakeState { readyWorld with clock := 100 })
        = some { NotBefore := 0, NotAfter := 100 }
      ∧ currentTime fakeEnv (fakeState { readyWorld with clock := 100 }) = 100
      ∧ (1 : Int) ≤ (fakeState { readyWorld with clock := 100 }).tr.CertRefreshDurationRate
      ∧ (fakeState { readyWorld with clock := 100 }).tr.manualRevoke = false
      ∧ (Lifespan fakeEnv (fakeState { readyWorld with clock := 100 })).value = some (0, 50)
      ∧ (Lifespan fakeEnv (fakeState { readyWorld with clock := 100 })).value ≠ some (0, 0) := by
  decide

/-- C5, amended: for every certificate, every refresh rate of at least 1 and every
time `now >= notAfter`, `Lifespan` returns `(0, 0)` when `now > notAfter` or a
manual revoke is pending; at the boundary `now == notAfter` with no revoke
pending it returns `remain = 0` and `rotateAt = notAfter.Sub(notBefore) /
refreshRate`, the truncated quotient of the validity as a `time.Duration`.
That `rotateAt` is at least 1 whenever the validity duration is at least the
refresh rate, and the validity duration is the difference `notAfter -
notBefore` whenever that difference fits in a `time.Duration`. -/
theorem C5_Lifespan_at_or_after_notAfter (env : Collaborators W) (s : State W)
    (cert : Certificate) (hc : currentCertificate env s = some cert)
    (hge : cert.NotAfter ≤ currentTime env s) (hrate : 1 ≤ s.tr.CertRefreshDurationRate) :
    (Lifespan env s).value
        = some (if cert.NotAfter < currentTime env s ∨ s.tr.manualRevoke = true then (0, 0)
            else (0, Int.tdiv (Time.Sub cert.NotAfter cert.NotBefore)
                    s.tr.CertRefreshDurationRate))
      ∧ (s.tr.CertRefreshDurationRate ≤ Time.Sub cert.NotAfter cert.NotBefore →
          1 ≤ Int.tdiv (Time.Sub cert.NotAfter cert.NotBefore) s.tr.CertRefreshDurationRate)
      ∧ (minDuration ≤ cert.NotAfter - cert.NotBefore →
          cert.NotAfter - cert.NotBefore ≤ maxDuration →
          Time.Sub cert.NotAfter cert.NotBefore = cert.NotAfter - cert.NotBefore) := by
  refine ⟨?_, fun h => one_le_tdiv _ _ hrate h, fun hlo hhi => Time.Sub_exact _ _ hlo hhi⟩
  by_cases hlt : cert.NotAfter < currentTime env s
  · rw [Lifespan_expired env s cert hc hlt, if_pos (Or.inl hlt)]
    rfl
  · have heq : currentTime env s = cert.NotAfter := by omega
    have hr : s.tr.CertRefreshDurationRate ≠ 0 := by omega
    cases hflag : s.tr.manualRevoke
    · rw [Lifespan_live env s cert hc (by omega) hr hflag, if_neg (by simp [hlt])]
      have hsub : Time.Sub cert.NotAfter (currentTime env s) = 0 := by
        rw [heq]
        unfold Time.Sub minDuration maxDuration
        simp
      rw [hsub, Duration.div_eq_tdiv _ _ (Time.Sub_range _ _).1 (Time.Sub_range _ _).2 hrate]
      rfl
    · rw [Lifespan_revoked env s cert hc (by omega) hr hflag, if_pos (Or.inr rfl)]
      rfl

/-- C5, amended, at the boundary input of the counterexample: the validity
duration is `100 - 0`, and `rotateAt` is at least 1. -/
theorem C5_Lifespan_at_or_after_notAfter_witness :
    (Lifespan fakeEnv (fakeState { readyWorld with clock := 100 })).value
        = some (if (100 : Int) < 100 ∨ false = true then (0, 0)
            else (0, Int.tdiv (Time.Sub 100 0) 2))
      ∧ 1 ≤ Int.tdiv (Time.Sub 100 0) 2
      ∧ Time.Sub 100 0 = 100 - 0 :=
  ⟨(C5_Lifespan_at_or_after_notAfter fakeEnv (fakeState { readyWorld with clock := 100 })
      { NotBefore := 0, NotAfter := 100 } (by decide) (by decide) (by decide)).1,
   (C5_Lifespan_at_or_after_notAfter fakeEnv (fakeState { readyWorld with clock := 100 })
      { NotBefore := 0, NotAfter := 100 } (by decide) (by decide) (by decide)).2.1 (by decide),
   (C5_Lifespan_at_or_after_notAfter fakeEnv (fakeState { readyWorld with clock := 100 })
      { NotBefore := 0, NotAfter := 100 } (by decide) (by decide) (by decide)).2.2
      (by decide) (by decide)⟩

/-- C6, as stated, fails for a certificate whose end lies more than a
`time.Duration` away: with validity 2020-01-01 to 9999-12-31T23:59:59, read on
2026-11-02 with refresh rate 2 and no manual revoke pending, `Lifespan` returns
`remain = 2^63 - 1` and `rotateAt = (2^63 - 1) / 2`, not `notAfter - now =
251608723199000000000` and `(notAfter - notBefore) / 2 = 125912231999500000000`. -/
theorem C6_far_future_counterexample :
    currentCertificate fakeEnv (fakeState farFutureWorld)
        = some { NotBefore := 1577836800000000000, NotAfter := 253402300799000000000 }
      ∧ currentTime fakeEnv (fakeState farFutureWorld) = 1793577600000000000
      ∧ (1577836800000000000 : Int) ≤ 253402300799000000000
      ∧ (1793577600000000000 : Int) < 253402300799000000000
      ∧ (1 : Int) ≤ (fakeState farFutureWorld).tr.CertRefreshDurationRate
      ∧ (fakeState farFutureWorld).tr.manualRevoke = false
      ∧ (Lifespan fakeEnv (fakeState farFutureWorld)).value
          = some (9223372036854775807, 4611686018427387903)
      ∧ (253402300799000000000 : Int) - 1793577600000000000 = 251608723199000000000
      ∧ Int.tdiv ((253402300799000000000 : Int) - 1577836800000000000) 2
          = 125912231999500000000
      ∧ (Lifespan fakeEnv (fakeState farFutureWorld)).value
          ≠ some ((253402300799000000000 : Int) - 1793577600000000000,
              Int.tdiv ((253402300799000000000 : Int) - 1577836800000000000) 2) := by
  decide

/-- C6, amended: for every certificate with `notBefore <= notAfter`, every refresh
rate of at least 1 and every time `now < notAfter`, with no manual revoke
pending, `Lifespan` returns `remain = notAfter.Sub(now)`, which is positive,
and `rotateAt = notAfter.Sub(notBefore) / refreshRate` with the quotient
truncated, so that `0 <= rotateAt <= notAfter - notBefore`.  `Sub` is the
`time.Duration` between two instants: `remain = notAfter - now` whenever that
difference is at most the largest duration `2^63 - 1`, and `remain = 2^63 - 1`
beyond; `rotateAt = (notAfter - notBefore) / refreshRate` whenever `notAfter -
notBefore` is at most `2^63 - 1`, and `rotateAt = (2^63 - 1) / refreshRate`
beyond. -/
theorem C6_Lifespan_before_notAfter (env : Collaborators W) (s : State W)
    (cert : Certificate) (hc : currentCertificate env s = some cert)
    (hvalid : cert.NotBefore ≤ cert.NotAfter) (hrate : 1 ≤ s.tr.CertRefreshDurationRate)
    (hlive : currentTime env s < cert.NotAfter) (hflag : s.tr.manualRevoke = false) :
    (Lifespan env s).value
        = some (Time.Sub cert.NotAfter (currentTime env s),
            Int.tdiv (Time.Sub cert.NotAfter cert.NotBefore) s.tr.CertRefreshDurationRate)
      ∧ 0 < Time.Sub cert.NotAfter (currentTime env s)
      ∧ 0 ≤ Int.tdiv (Time.Sub cert.NotAfter cert.NotBefore) s.tr.CertRefreshDurationRate
      ∧ Int.tdiv (Time.Sub cert.NotAfter cert.NotBefore) s.tr.CertRefreshDurationRate
          ≤ cert.NotAfter - cert.NotBefore
      ∧ (cert.NotAfter - currentTime env s ≤ maxDuration →
          Time.Sub cert.NotAfter (currentTime env s) = cert.NotAfter - currentTime env s)
      ∧ (maxDuration < cert.NotAfter - currentTime env s →
          Time.Sub cert.NotAfter (currentTime env s) = maxDuration)
      ∧ (cert.NotAfter - cert.NotBefore ≤ maxDuration →
          Int.tdiv (Time.Sub cert.NotAfter cert.NotBefore) s.tr.CertRefreshDurationRate
            = Int.tdiv (cert.NotAfter - cert.NotBefore) s.tr.CertRefreshDurationRate)
      ∧ (maxDuration < cert.NotAfter - cert.NotBefore →
          Int.tdiv (Time.Sub cert.NotAfter cert.NotBefore) s.tr.CertRefreshDurationRate
            = Int.tdiv maxDuration s.tr.CertRefreshDurationRate) := by
  have hb := tdiv_bounds_of_nonneg (Time.Sub cert.NotAfter cert.NotBefore)
    s.tr.CertRefreshDurationRate (Time.Sub_nonneg _ _ hvalid) hrate
  have hle := Time.Sub_le cert.NotAfter cert.NotBefore hvalid
  refine ⟨?_, Time.Sub_pos _ _ hlive, hb.1, by omega, ?_, ?_, ?_, ?_⟩
  · rw [Lifespan_live env s cert hc (by omega) (by omega) hflag,
      Duration.div_eq_tdiv _ _ (Time.Sub_range _ _).1 (Time.Sub_range _ _).2 hrate]
    rfl
  · intro h
    exact Time.Sub_exact _ _ (by unfold minDuration; omega) h
  · intro h
    exact Time.Sub_saturated _ _ h
  · intro h
    rw [Time.Sub_exact _ _ (by unfold minDuration; omega) h]
  · intro h
    rw [Time.Sub_saturated _ _ h]

/-- C6, amended, at a certificate valid from 0 to 100 read at time 10 with refresh
rate 2 (`remain = 90`, `rotateAt = 50`, both exact), and at the far-future
certificate of the counterexample, where both durations are saturated. -/
theorem C6_Lifespan_before_notAfter_witness :
    ((Lifespan fakeEnv (fakeState readyWorld)).value
        = some (Time.Sub 100 10, Int.tdiv (Time.Sub 100 0) 2)
      ∧ 0 < Time.Sub 100 10
      ∧ 0 ≤ Int.tdiv (Time.Sub 100 0) 2
      ∧ Int.tdiv (Time.Sub 100 0) 2 ≤ 100 - 0
      ∧ Time.Sub 100 10 = 100 - 10
      ∧ Int.tdiv (Time.Sub 100 0) 2 = Int.tdiv (100 - 0) 2)
      ∧ (Time.Sub 253402300799000000000 1793577600000000000 = maxDuration
        ∧ Int.tdiv (Time.Sub 253402300799000000000 1577836800000000000) 2
            = Int.tdiv maxDuration 2) :=
  ⟨⟨(C6_Lifespan_before_notAfter fakeEnv (fakeState readyWorld)
        { NotBefore := 0, NotAfter := 100 } (by decide) (by decide) (by decide) (by decide)
        (by decide)).1,
    (C6_Lifespan_before_notAfter fakeEnv (fakeState readyWorld)
        { NotBefore := 0, NotAfter := 100 } (by decide) (by decide) (by decide) (by decide)
        (by decide)).2.1,
    (C6_Lifespan_before_notAfter fakeEnv (fakeState readyWorld)
        { NotBefore := 0, NotAfter := 100 } (by decide) (by decide) (by decide) (by decide)
        (by decide)).2.2.1,
    (C6_Lifespan_before_notAfter fakeEnv (fakeState readyWorld)
        { NotBefore := 0, NotAfter := 100 } (by decide) (by decide) (by decide) (by decide)
        (by decide)).2.2.2.1,
    (C6_Lifespan_before_notAfter fakeEnv (fakeState readyWorld)
        { NotBefore := 0, NotAfter := 100 } (by decide) (by decide) (by decide) (by decide)
        (by decide)).2.2.2.2.1 (by decide),
    (C6_Lifespan_before_notAfter fakeEnv (fakeState readyWorld)
        { NotBefore := 0, NotAfter := 100 } (by decide) (by decide) (by decide) (by decide)
        (by decide)).2.2.2.2.2.2.1 (by decide)⟩,
   ⟨(C6_Lifespan_before_notAfter fakeEnv (fakeState farFutureWorld)
        { NotBefore := 1577836800000000000, NotAfter := 253402300799000000000 }
        (by decide) (by decide) (by decide) (by decide) (by decide)).2.2.2.2.2.1 (by decide),
    (C6_Lifespan_before_notAfter fakeEnv (fakeState farFutureWorld)
        { NotBefore := 1577836800000000000, NotAfter := 253402300799000000000 }
        (by decide) (by decide) (by decide) (by decide) (by decide)).2.2.2.2.2.2.2
        (by decide)⟩⟩

/-- The pair `Lifespan` returns depends on the manager and the world only, not
on the log. -/
theorem Lifespan_value_congr (env : Collaborators W) (s t : State W)
    (htr : s.tr = t.tr) (hw : s.world = t.world) :
    (Lifespan env s).value = (Lifespan env t).value := by
  unfold Lifespan
  simp only [State.record, htr, hw]
  cases (env.Certificate t.world).1 with
  | none => rfl
  | some cert =>
    simp only
    split
    · rfl
    · split
      · rfl
      · split <;> rfl

/-- C3, as stated, fails for an absent certificate: after `ManualRevoke` the next
`Lifespan` returns `(0, 0)` but leaves the flag set, so once the provider holds
a certificate valid from 0 to 100 (time 10, rate 2) the call after that
returns `(0, 0)` again, where without `ManualRevoke` it returns `(90, 50)`. -/
theorem C3_absent_counterexample :
    currentCertificate fakeEnv (fakeState { readyWorld with cert := none }) = none
      ∧ (Lifespan fakeEnv (ManualRevoke (fakeState { readyWorld with cert := none }))).value
          = some (0, 0)
      ∧ (Lifespan fakeEnv
            (ManualRevoke (fakeState { readyWorld with cert := none }))).state.tr.manualRevoke
          = true
      ∧ (Lifespan fakeEnv
            { (Lifespan fakeEnv
                (ManualRevoke (fakeState { readyWorld with cert := none }))).state with
              world := readyWorld }).value = some (0, 0)
      ∧ (Lifespan fakeEnv
            { (Lifespan fakeEnv (fakeState { readyWorld with cert := none })).state with
              world := readyWorld }).value = some (90, 50) := by
  decide

/-- C3, amended: with a non-zero refresh rate, after `ManualRevoke` the very next
`Lifespan` call returns `(0, 0)` whatever the certificate state.  When the
provider holds a certificate that is not past `notAfter` at that call, the call
clears the flag, and the `Lifespan` call after it returns exactly what it would
have returned had `ManualRevoke` never been called, whatever world `w` (and so
whatever certificate) the collaborators are in at that point. -/
theorem C3_manualRevoke_one_shot (env : Collaborators W) (s : State W)
    (hrate : s.tr.CertRefreshDurationRate ≠ 0) :
    (Lifespan env (ManualRevoke s)).value = some (0, 0)
      ∧ ∀ cert : Certificate, currentCertificate env s = some cert →
          currentTime env s ≤ cert.NotAfter →
          (Lifespan env (ManualRevoke s)).state.tr.manualRevoke = false
            ∧ ∀ w : W,
                (Lifespan env { (Lifespan env (ManualRevoke s)).state with world := w }).value
                  = (Lifespan env { (Lifespan env s).state with world := w }).value := by
  have hcur : currentCertificate env (ManualRevoke s) = currentCertificate env s := rfl
  have hnow : currentTime env (ManualRevoke s) = currentTime env s := rfl
  constructor
  · cases hc : currentCertificate env s with
    | none => rw [Lifespan_absent env _ (hcur.trans hc)]; rfl
    | some cert =>
      by_cases hexp : cert.NotAfter < currentTime env s
      · rw [Lifespan_expired env _ cert (hcur.trans hc) (by rw [hnow]; exact hexp)]; rfl
      · rw [Lifespan_revoked env _ cert (hcur.trans hc) (by rw [hnow]; omega) hrate rfl]; rfl
  · intro cert hc hlive
    rw [Lifespan_revoked env _ cert (hcur.trans hc) (by rw [hnow]; exact hlive) hrate rfl]
    refine ⟨rfl, fun w => ?_⟩
    apply Lifespan_value_congr
    · cases hflag : s.tr.manualRevoke
      · rw [Lifespan_live env s cert hc hlive hrate hflag]
        show ({ (ManualRevoke s).tr with manualRevoke := false } : Transport) = s.tr
        cases s with
        | mk tr world log =>
          cases tr
          simp only [ManualRevoke] at hflag ⊢
          simp [hflag]
      · rw [Lifespan_revoked env s cert hc hlive hrate hflag]
        rfl
    · rfl

/-- C3, amended, at a ready provider holding a certificate valid from 0 to 100 at
time 10: the flag is gone after one call and the next call agrees with the
history without `ManualRevoke`, also when the certificate has meanwhile been
replaced. -/
theorem C3_manualRevoke_one_shot_witness :
    (fakeState readyWorld).tr.CertRefreshDurationRate ≠ 0
      ∧ (Lifespan fakeEnv (ManualRevoke (fakeState readyWorld))).value = some (0, 0)
      ∧ (Lifespan fakeEnv (ManualRevoke (fakeState readyWorld))).state.tr.manualRevoke = false
      ∧ (Lifespan fakeEnv
            { (Lifespan fakeEnv (ManualRevoke (fakeState readyWorld))).state with
              world := { readyWorld with cert := some { NotBefore := 10, NotAfter := 110 } } }).value
          = (Lifespan fakeEnv
            { (Lifespan fakeEnv (fakeState readyWorld)).state with
              world := { readyWorld with cert := some { NotBefore := 10, NotAfter := 110 } } }).value :=
  ⟨by decide,
   (C3_manualRevoke_one_shot fakeEnv (fakeState readyWorld) (by decide)).1,
   ((C3_manualRevoke_one_shot fakeEnv (fakeState readyWorld) (by decide)).2
      { NotBefore := 0, NotAfter := 100 } (by decide) (by decide)).1,
   ((C3_manualRevoke_one_shot fakeEnv (fakeState readyWorld) (by decide)).2
      { NotBefore := 0, NotAfter := 100 } (by decide) (by decide)).2
      { readyWorld with cert := some { NotBefore := 10, NotAfter := 110 } }⟩

/-! ## Claims about GetCertificate -/

theorem newEvents_of_log (s t : State W) (l : List Event) (h : t.log = s.log ++ l) :
    newEvents s t = l := by
  unfold newEvents
  rw [h, List.drop_left]

/-- C1, at the failing input: the provider reports ready and `X509KeyPair` returns
the zero certificate with an error; `GetCertificate` returns the pointer to that
empty certificate together with the nil error. -/
theorem C1_keypair_error_returned_as_success :
    (fakeEnv.Ready
        (fakeState { readyWorld with keyPairErr := some (GoError.collaborator 7 false) }).world).1
        = true
      ∧ (fakeEnv.X509KeyPair
          { readyWorld with keyPairErr := some (GoError.collaborator 7 false) }).1
        = (TLSCertificate.zero, some (GoError.collaborator 7 false))
      ∧ (GetCertificate fakeEnv 1
          (fakeState { readyWorld with
            keyPairErr := some (GoError.collaborator 7 false) })).map Outcome.value
        = some (some (some TLSCertificate.zero, none)) := by
  decide

/-- C8, on the code: for every transport, the configuration that the
`GetConfigForClient` callback of `TLSClientAuthServerConfig` returns, which is
the one `crypto/tls` handshakes with, has the certificate callback, the
own-chain root pool and the client trust pool, but `ClientAuth` is the zero
value `NoClientCert`, `MinVersion` is 0 and `CipherSuites` is nil.
`RequireAndVerifyClientCert`, TLS 1.2 and the cipher-suite list are set on the
outer configuration only. -/
theorem C8_per_handshake_config_lacks_client_auth (env : Collaborators W) (w : W) :
    (TLSClientAuthServerConfig env).1.ClientAuth = ClientAuthType.RequireAndVerifyClientCert
      ∧ (TLSClientAuthServerConfig env).1.MinVersion = VersionTLS12
      ∧ (TLSClientAuthServerConfig env).1.CipherSuites = env.CipherSuites
      ∧ (∃ f, (TLSClientAuthServerConfig env).1.GetConfigForClient = some f
          ∧ (f w).1 = some (handshakeConfig (TLSClientAuthServerConfig env).1 w)
          ∧ (f w).2 = none)
      ∧ (handshakeConfig (TLSClientAuthServerConfig env).1 w).ClientAuth
          = ClientAuthType.NoClientCert
      ∧ (handshakeConfig (TLSClientAuthServerConfig env).1 w).ClientAuth
          ≠ ClientAuthType.RequireAndVerifyClientCert
      ∧ (handshakeConfig (TLSClientAuthServerConfig env).1 w).MinVersion = 0
      ∧ (handshakeConfig (TLSClientAuthServerConfig env).1 w).CipherSuites = []
      ∧ (handshakeConfig (TLSClientAuthServerConfig env).1 w).RootCAs
          = some (env.TrustStorePool w)
      ∧ (handshakeConfig (TLSClientAuthServerConfig env).1 w).ClientCAs
          = some (env.ClientTrustStorePool w)
      ∧ (handshakeConfig (TLSClientAuthServerConfig env).1 w).GetCertificate.isSome = true := by
  refine ⟨rfl, rfl, rfl, ⟨_, rfl, rfl, rfl⟩, rfl, ?_, rfl, rfl, rfl, rfl, rfl⟩
  show ClientAuthType.NoClientCert ≠ ClientAuthType.RequireAndVerifyClientCert
  decide

/-! ## The log of the refresh protocol -/

theorem loadOrGenerate_log (env : Collaborators W) (s : State W) :
    ∃ l : List Event, (loadOrGenerate env s).2.log = s.log ++ l
      ∧ l.all Event.isPreparation = true := by
  unfold loadOrGenerate
  simp only
  split
  · exact ⟨[_], rfl, rfl⟩
  · split
    · exact ⟨[_, _], by simp only [State.record, List.append_assoc]; rfl, by rfl⟩
    · split
      · exact ⟨[_, _], by simp only [State.record, List.append_assoc]; rfl, by rfl⟩
      · exact ⟨[_, _, _], by simp only [State.record, List.append_assoc]; rfl, by rfl⟩

theorem Lifespan_log (env : Collaborators W) (s : State W) :
    ∃ l : List Event, (Lifespan env s).state.log = s.log ++ l
      ∧ l.all Event.isPreparation = true := by
  unfold Lifespan
  simp only
  split
  · exact ⟨[_], rfl, rfl⟩
  · split
    · exact ⟨[_, _], by simp only [State.record, Outcome.state, List.append_assoc]; rfl, by rfl⟩
    · split
      · exact ⟨[_, _], by simp only [State.record, Outcome.state, List.append_assoc]; rfl,
          by rfl⟩
      · split
        · exact ⟨[_, _], by simp only [State.record, Outcome.state, List.append_assoc]; rfl,
            by rfl⟩
        · exact ⟨[_, _], by simp only [State.record, Outcome.state, List.append_assoc]; rfl,
            by rfl⟩

theorem atSigning_log (env : Collaborators W) (s s2 : State W)
    (h : atSigning env s = some s2) :
    ∃ l : List Event, s2.log = s.log ++ l ∧ l.all Event.isPreparation = true := by
  unfold atSigning at h
  obtain ⟨l1, hl1, hq1⟩ := loadOrGenerate_log env s
  obtain ⟨l2, hl2, hq2⟩ := Lifespan_log env (loadOrGenerate env s).2
  rcases hlg : loadOrGenerate env s with ⟨e, s1⟩
  rw [hlg] at h hl1 hl2
  cases e with
  | some e => exact absurd h (by simp)
  | none =>
    simp only at h hl1 hl2
    rcases hls : Lifespan env s1 with ⟨⟨remain, lifespan⟩, s3⟩ | s3
    · rw [hls] at h hl2
      simp only [Outcome.state] at h hl2
      split at h
      · simp only [Option.some.injEq] at h
        subst h
        refine ⟨l1 ++ l2, ?_, ?_⟩
        · rw [hl2, hl1, List.append_assoc]
        · rw [List.all_append, hq1, hq2]; rfl
      · exact absurd h (by simp)
    · rw [hls] at h
      exact absurd h (by simp)

theorem AsyncRefreshKeysWith_atSigning (env : Collaborators W)
    (refresh : State W → Option (RefreshOutcome W)) (s s2 : State W)
    (h : atSigning env s = some s2) :
    AsyncRefreshKeysWith env refresh s = signAndStore env refresh s2 := by
  unfold atSigning at h
  unfold AsyncRefreshKeysWith
  rcases hlg : loadOrGenerate env s with ⟨e, s1⟩
  rw [hlg] at h
  cases e with
  | some e => exact absurd h (by simp)
  | none =>
    simp only at h ⊢
    rcases hls : Lifespan env s1 with ⟨⟨remain, lifespan⟩, s3⟩ | s3
    · rw [hls] at h
      simp only at h ⊢
      split at h
      · next hcond =>
        simp only [Option.some.injEq] at h
        subst h
        rw [if_pos hcond]
      · exact absurd h (by simp)
    · rw [hls] at h
      exact absurd h (by simp)

theorem RefreshKeys_succ_atSigning (env : Collaborators W) (fuel : Nat) (s s2 : State W)
    (hno : ∀ w w0 : W, env.timerFiresFirst w w0 = false)
    (hsign : atSigning env (s.record s.world Event.RefreshKeys) = some s2) :
    RefreshKeys env (fuel + 1) s
      = match signAndStore env (fun s1 => RefreshKeys env fuel s1) s2 with
        | none => none
        | some (.panic t) => some (.panic t)
        | some (.ret err t) => some (.ret err t) := by
  rw [RefreshKeys, AsyncRefreshKeysWith_atSigning env _ _ s2 hsign]
  simp only [hno, Bool.false_eq_true, if_false]

/-! ## Claims about RefreshKeys -/

/-- C10: take a refresh in which signing is needed (`RefreshKeys`, entered in `s`,
reaches the signing branch in `s2`) and the timer does not fire.  If building
the CSR, `SignCSR`, `SetCertificatePEM` or `Store` returns an error `err` for
which `SignalFailure(err)` answers false, then `RefreshKeys` returns exactly
`err`, and its calls are, in this order: the entry into `RefreshKeys`, the key
loading and `Lifespan` reads made before the signing branch (`pre`), the steps
before the failing one, each once and without error, the failing step once, and
`SignalFailure(err)` once, with nothing after it. -/
theorem C10_permanent_failure_not_retried (env : Collaborators W) (fuel : Nat)
    (s s2 : State W) (err : GoError)
    (hno : ∀ w w0 : W, env.timerFiresFirst w w0 = false)
    (hsign : atSigning env (s.record s.world Event.RefreshKeys) = some s2) :
    ((csrResult env s2).1.2 = some err →
        (env.SignalFailure err (csrResult env s2).2).1 = false →
        ∃ (t : State W) (pre : List Event),
          RefreshKeys env (fuel + 1) s = some (.ret (some err) t)
            ∧ pre.all Event.isPreparation = true
            ∧ newEvents s t
                = Event.RefreshKeys :: (pre ++ [Event.CertificateRequest (some err), Event.SignalFailure err false]))
      ∧ ((csrResult env s2).1.2 = none →
          (signResult env s2).1.2 = some err →
          (env.SignalFailure err (signResult env s2).2).1 = false →
          ∃ (t : State W) (pre : List Event),
            RefreshKeys env (fuel + 1) s = some (.ret (some err) t)
              ∧ pre.all Event.isPreparation = true
              ∧ newEvents s t
                  = Event.RefreshKeys :: (pre ++ [Event.CertificateRequest none,
                      Event.SignCSR (csrResult env s2).1.1 (some err),
                      Event.SignalFailure err false]))
      ∧ ((csrResult env s2).1.2 = none →
          (signResult env s2).1.2 = none →
          (setResult env s2).1 = some err →
          (env.SignalFailure err (setResult env s2).2).1 = false →
          ∃ (t : State W) (pre : List Event),
            RefreshKeys env (fuel + 1) s = some (.ret (some err) t)
              ∧ pre.all Event.isPreparation = true
              ∧ newEvents s t
                  = Event.RefreshKeys :: (pre ++ [Event.CertificateRequest none,
                      Event.SignCSR (csrResult env s2).1.1 none,
                      Event.SetCertificatePEM (signResult env s2).1.1 (some err),
                      Event.SignalFailure err false]))
      ∧ ((csrResult env s2).1.2 = none →
          (signResult env s2).1.2 = none →
          (setResult env s2).1 = none →
          (persistentResult env s2).1 = true →
          (storeResult env s2).1 = some err →
          (env.SignalFailure err (storeResult env s2).2).1 = false →
          ∃ (t : State W) (pre : List Event),
            RefreshKeys env (fuel + 1) s = some (.ret (some err) t)
              ∧ pre.all Event.isPreparation = true
              ∧ newEvents s t
                  = Event.RefreshKeys :: (pre ++ [Event.CertificateRequest none,
                      Event.SignCSR (csrResult env s2).1.1 none,
                      Event.SetCertificatePEM (signResult env s2).1.1 none,
                      Event.Persistent true,
                      Event.Store (some err),
                      Event.SignalFailure err false])) := by
  have hrk := RefreshKeys_succ_atSigning env fuel s s2 hno hsign
  refine ⟨?_, ?_, ?_, ?_⟩
  · intro h1 hsf
    unfold csrResult at h1 hsf
    have hrun : signAndStore env (fun s1 => RefreshKeys env fuel s1) s2
        = some (.ret (some err)
            ((s2.record (csrResult env s2).2 (Event.CertificateRequest (some err))).record
              (env.SignalFailure err (csrResult env s2).2).2
              (Event.SignalFailure err false))) := by
      unfold signAndStore onFailure csrResult
      simp only [h1, State.record, hsf, Bool.false_eq_true, if_false]
    rw [hrun] at hrk
    obtain ⟨l, hl, hq⟩ := atSigning_log env _ s2 hsign
    refine ⟨_, l, hrk, hq, ?_⟩
    apply newEvents_of_log
    simp [State.record, hl]
  · intro h1 h2 hsf
    unfold signResult csrResult at h2 hsf
    unfold csrResult at h1
    have hrun : signAndStore env (fun s1 => RefreshKeys env fuel s1) s2
        = some (.ret (some err)
            (((s2.record (csrResult env s2).2 (Event.CertificateRequest none)).record
              (signResult env s2).2 (Event.SignCSR (csrResult env s2).1.1 (some err))).record
              (env.SignalFailure err (signResult env s2).2).2
              (Event.SignalFailure err false))) := by
      unfold signAndStore onFailure signResult csrResult
      simp only [h1, h2, State.record, hsf, Bool.false_eq_true, if_false]
    rw [hrun] at hrk
    obtain ⟨l, hl, hq⟩ := atSigning_log env _ s2 hsign
    refine ⟨_, l, hrk, hq, ?_⟩
    apply newEvents_of_log
    simp [State.record, hl]
  · intro h1 h2 h3 hsf
    unfold setResult signResult csrResult at h3 hsf
    unfold signResult csrResult at h2
    unfold csrResult at h1
    have hrun : signAndStore env (fun s1 => RefreshKeys env fuel s1) s2
        = some (.ret (some err)
            ((((s2.record (csrResult env s2).2 (Event.CertificateRequest none)).record
              (signResult env s2).2 (Event.SignCSR (csrResult env s2).1.1 none)).record
              (setResult env s2).2
              (Event.SetCertificatePEM (signResult env s2).1.1 (some err))).record
              (env.SignalFailure err (setResult env s2).2).2
              (Event.SignalFailure err false))) := by
      unfold signAndStore onFailure setResult signResult csrResult
      simp only [h1, h2, h3, State.record, hsf, Bool.false_eq_true, if_false]
    rw [hrun] at hrk
    obtain ⟨l, hl, hq⟩ := atSigning_log env _ s2 hsign
    refine ⟨_, l, hrk, hq, ?_⟩
    apply newEvents_of_log
    simp [State.record, hl]
  · intro h1 h2 h3 h4 h5 hsf
    unfold storeResult persistentResult setResult signResult csrResult at h5 hsf
    unfold persistentResult setResult signResult csrResult at h4
    unfold setResult signResult csrResult at h3
    unfold signResult csrResult at h2
    unfold csrResult at h1
    have hrun : signAndStore env (fun s1 => RefreshKeys env fuel s1) s2
        = some (.ret (some err)
            ((((((s2.record (csrResult env s2).2 (Event.CertificateRequest none)).record
              (signResult env s2).2 (Event.SignCSR (csrResult env s2).1.1 none)).record
              (setResult env s2).2
              (Event.SetCertificatePEM (signResult env s2).1.1 none)).record
              (persistentResult env s2).2 (Event.Persistent true)).record
              (storeResult env s2).2 (Event.Store (some err))).record
              (env.SignalFailure err (storeResult env s2).2).2
              (Event.SignalFailure err false))) := by
      unfold signAndStore onFailure storeResult persistentResult setResult signResult csrResult
      simp only [h1, h2, h3, h4, h5, State.record, hsf, Bool.false_eq_true, if_false, if_true]
    rw [hrun] at hrk
    obtain ⟨l, hl, hq⟩ := atSigning_log env _ s2 hsign
    refine ⟨_, l, hrk, hq, ?_⟩
    apply newEvents_of_log
    simp [State.record, hl]

/-- C10 at the in-memory collaborators, once for each of the four steps failing
for good (`SignalFailure` answers false): the error comes back unchanged and
the log ends with the failing step and one `SignalFailure`. -/
theorem C10_permanent_failure_not_retried_witness :
    (∃ (t : State FakeWorld) (pre : List Event),
        RefreshKeys fakeEnv 1
            (fakeState { emptyWorld with csrErr := some (GoError.collaborator 2 false) })
          = some (.ret (some (GoError.collaborator 2 false)) t)
        ∧ pre.all Event.isPreparation = true
        ∧ newEvents (fakeState { emptyWorld with csrErr := some (GoError.collaborator 2 false) }) t
          = Event.RefreshKeys :: (pre ++ [Event.CertificateRequest (some (GoError.collaborator 2 false)),
              Event.SignalFailure (GoError.collaborator 2 false) false]))
      ∧ (∃ (t : State FakeWorld) (pre : List Event),
        RefreshKeys fakeEnv 1
            (fakeState { emptyWorld with signErr := some (GoError.collaborator 3 false) })
          = some (.ret (some (GoError.collaborator 3 false)) t)
        ∧ pre.all Event.isPreparation = true
        ∧ newEvents (fakeState { emptyWorld with signErr := some (GoError.collaborator 3 false) }) t
          = Event.RefreshKeys :: (pre ++ [Event.CertificateRequest none,
              Event.SignCSR [67] (some (GoError.collaborator 3 false)),
              Event.SignalFailure (GoError.collaborator 3 false) false]))
      ∧ (∃ (t : State FakeWorld) (pre : List Event),
        RefreshKeys fakeEnv 1
            (fakeState { emptyWorld with setErr := some (GoError.collaborator 4 false) })
          = some (.ret (some (GoError.collaborator 4 false)) t)
        ∧ pre.all Event.isPreparation = true
        ∧ newEvents (fakeState { emptyWorld with setErr := some (GoError.collaborator 4 false) }) t
          = Event.RefreshKeys :: (pre ++ [Event.CertificateRequest none,
              Event.SignCSR [67] none,
              Event.SetCertificatePEM [80] (some (GoError.collaborator 4 false)),
              Event.SignalFailure (GoError.collaborator 4 false) false]))
      ∧ (∃ (t : State FakeWorld) (pre : List Event),
        RefreshKeys fakeEnv 1
            (fakeState { emptyWorld with storeErr := some (GoError.collaborator 5 false) })
          = some (.ret (some (GoError.collaborator 5 false)) t)
        ∧ pre.all Event.isPreparation = true
        ∧ newEvents (fakeState { emptyWorld with storeErr := some (GoError.collaborator 5 false) }) t
          = Event.RefreshKeys :: (pre ++ [Event.CertificateRequest none,
              Event.SignCSR [67] none,
              Event.SetCertificatePEM [80] none,
              Event.Persistent true,
              Event.Store (some (GoError.collaborator 5 false)),
              Event.SignalFailure (GoError.collaborator 5 false) false])) :=
  ⟨(C10_permanent_failure_not_retried fakeEnv 0
      (fakeState { emptyWorld with csrErr := some (GoError.collaborator 2 false) })
      (fakeSigningState { emptyWorld with csrErr := some (GoError.collaborator 2 false) })
      (GoError.collaborator 2 false) (fun _ _ => rfl) (by decide)).1 (by decide) (by decide),
   (C10_permanent_failure_not_retried fakeEnv 0
      (fakeState { emptyWorld with signErr := some (GoError.collaborator 3 false) })
      (fakeSigningState { emptyWorld with signErr := some (GoError.collaborator 3 false) })
      (GoError.collaborator 3 false) (fun _ _ => rfl) (by decide)).2.1
      (by decide) (by decide) (by decide),
   (C10_permanent_failure_not_retried fakeEnv 0
      (fakeState { emptyWorld with setErr := some (GoError.collaborator 4 false) })
      (fakeSigningState { emptyWorld with setErr := some (GoError.collaborator 4 false) })
      (GoError.collaborator 4 false) (fun _ _ => rfl) (by decide)).2.2.1
      (by decide) (by decide) (by decide) (by decide),
   (C10_permanent_failure_not_retried fakeEnv 0
      (fakeState { emptyWorld with storeErr := some (GoError.collaborator 5 false) })
      (fakeSigningState { emptyWorld with storeErr := some (GoError.collaborator 5 false) })
      (GoError.collaborator 5 false) (fun _ _ => rfl) (by decide)).2.2.2
      (by decide) (by decide) (by decide) (by decide) (by decide) (by decide)⟩

/-! ## Claims about AutoUpdate -/

/-- C9: for every `AutoUpdate` tick that attempts a refresh (`Lifespan` returned
`remain <= rotateAt`): if `RefreshKeys` succeeds, `AutoUpdate` returns nil and
its one further call is `Backoff.Reset`; if `RefreshKeys` fails with `err`,
`AutoUpdate` returns that same `err` and its one further call is
`Backoff.Duration`, so the policy is advanced once and not reset. -/
theorem C9_AutoUpdate_backoff (env : Collaborators W) (fuel : Nat) (s s1 : State W)
    (remain rotateAt : Int) (hl : Lifespan env s = .ret (remain, rotateAt) s1)
    (hdue : remain ≤ rotateAt) :
    (∀ t : State W, RefreshKeys env fuel s1 = some (.ret none t) →
        ∃ u : State W, AutoUpdate env fuel s = some (.ret none u)
          ∧ u.world = env.BackoffReset t.world
          ∧ newEvents t u = [Event.BackoffReset]
          ∧ u.tr = t.tr)
      ∧ (∀ (err : GoError) (t : State W), RefreshKeys env fuel s1 = some (.ret (some err) t) →
        ∃ u : State W, AutoUpdate env fuel s = some (.ret (some err) u)
          ∧ u.world = (env.BackoffDuration t.world).2
          ∧ newEvents t u = [Event.BackoffDuration (env.BackoffDuration t.world).1]
          ∧ u.tr = t.tr) := by
  constructor
  · intro t ht
    refine ⟨t.record (env.BackoffReset t.world) Event.BackoffReset, ?_, rfl, ?_, rfl⟩
    · unfold AutoUpdate
      rw [hl]
      simp only [gt_iff_lt, if_neg (not_lt.mpr hdue), ht]
    · exact newEvents_of_log _ _ _ rfl
  · intro err t ht
    refine ⟨t.record (env.BackoffDuration t.world).2
      (Event.BackoffDuration (env.BackoffDuration t.world).1), ?_, rfl, ?_, rfl⟩
    · unfold AutoUpdate
      rw [hl]
      simp only [gt_iff_lt, if_neg (not_lt.mpr hdue), ht]
    · exact newEvents_of_log _ _ _ rfl

/-- C9 at the in-memory collaborators, three backoff attempts in, with no
certificate: when the authority signs, the tick returns nil and the attempts
are back at 0; when the authority fails for good, the tick returns that error
and the attempts are at 4. -/
theorem C9_AutoUpdate_backoff_witness :
    (∃ u : State FakeWorld,
        AutoUpdate fakeEnv 1 (fakeState emptyWorld) = some (.ret none u)
          ∧ u.world.attempts = 0
          ∧ newEvents (fakeAfterRefresh emptyWorld) u = [Event.BackoffReset])
      ∧ (∃ u : State FakeWorld,
        AutoUpdate fakeEnv 1
            (fakeState { emptyWorld with signErr := some (GoError.collaborator 3 false) })
          = some (.ret (some (GoError.collaborator 3 false)) u)
          ∧ u.world.attempts = 4
          ∧ newEvents
              (fakeAfterRefresh { emptyWorld with signErr := some (GoError.collaborator 3 false) }) u
            = [Event.BackoffDuration 8000000000]) := by
  constructor
  · obtain ⟨u, h1, h2, h3, _⟩ :=
      (C9_AutoUpdate_backoff fakeEnv 1 (fakeState emptyWorld) (fakeAfterLifespan emptyWorld)
        0 0 (by decide) (by decide)).1 (fakeAfterRefresh emptyWorld) (by decide)
    exact ⟨u, h1, by rw [h2]; decide, h3⟩
  · obtain ⟨u, h1, h2, h3, _⟩ :=
      (C9_AutoUpdate_backoff fakeEnv 1
        (fakeState { emptyWorld with signErr := some (GoError.collaborator 3 false) })
        (fakeAfterLifespan { emptyWorld with signErr := some (GoError.collaborator 3 false) })
        0 0 (by decide) (by decide)).2 (GoError.collaborator 3 false)
        (fakeAfterRefresh { emptyWorld with signErr := some (GoError.collaborator 3 false) })
        (by decide)
    exact ⟨u, h1, by rw [h2]; decide, by rw [h3]; decide⟩

/-- C4, at the failing input: the provider is ready and holds a certificate valid
from 0 to 100, the time is 10 and the refresh rate 2, so `remain = 90 >
rotateAt = 50 > 0`.  After `ManualRevoke`, one `AutoUpdate` tick returns nil
having called neither `CertificateRequest` nor `SignCSR` nor
`SetCertificatePEM`: the `Lifespan` call of `AutoUpdate` uses up the flag and
the `Lifespan` call of `AsyncRefreshKeys` then sees `(90, 50)`.  The provider
still holds the old certificate.  The same state given to `RefreshKeys`
directly does sign and install the new certificate. -/
theorem C4_manualRevoke_then_AutoUpdate_does_not_sign :
    (fakeEnv.Ready readyWorld).1 = true
      ∧ (Lifespan fakeEnv (fakeState readyWorld)).value = some (90, 50)
      ∧ (∀ w w0 : FakeWorld, fakeEnv.timerFiresFirst w w0 = false)
      ∧ (AutoUpdate fakeEnv 1 (ManualRevoke (fakeState readyWorld))).map
            (fun o => (o.value, o.state.log, o.state.world.cert))
          = some (some none,
              [Event.Certificate (some { NotBefore := 0, NotAfter := 100 }), Event.Now 10,
                Event.RefreshKeys, Event.Ready true,
                Event.Certificate (some { NotBefore := 0, NotAfter := 100 }), Event.Now 10,
                Event.BackoffReset],
              some { NotBefore := 0, NotAfter := 100 })
      ∧ (RefreshKeys fakeEnv 1 (ManualRevoke (fakeState readyWorld))).map
            (fun o => (o.value, o.state.log, o.state.world.cert))
          = some (some none,
              [Event.RefreshKeys, Event.Ready true,
                Event.Certificate (some { NotBefore := 0, NotAfter := 100 }), Event.Now 10,
                Event.CertificateRequest none, Event.SignCSR [67] none,
                Event.SetCertificatePEM [80] none, Event.Persistent true, Event.Store none],
              some { NotBefore := 10, NotAfter := 110 }) := by
  refine ⟨by decide, by decide, fun _ _ => rfl, by decide, by decide⟩

/-! ## Counting the entries into RefreshKeys -/

theorem countP_of_all_isPreparation (l : List Event)
    (h : l.all Event.isPreparation = true) :
    l.countP Event.isEntry = 0 ∧ l.countP Event.isRetry = 0 := by
  rw [List.all_eq_true] at h
  constructor
  · rw [List.countP_eq_zero]
    intro e he
    have := h e he
    cases e <;> simp_all [Event.isPreparation, Event.isEntry]
  · rw [List.countP_eq_zero]
    intro e he
    have := h e he
    cases e <;> simp_all [Event.isPreparation, Event.isRetry]

theorem onFailure_shape (env : Collaborators W)
    (refresh : State W → Option (RefreshOutcome W)) (err : GoError) (log0 : List Event)
    (s : State W) (l : List Event) (hs : s.log = log0 ++ l)
    (h1 : l.countP Event.isEntry = 0) (h2 : l.countP Event.isRetry = 0) :
    RefreshShape refresh log0 (onFailure env refresh err s) := by
  unfold onFailure
  simp only
  cases hf : (env.SignalFailure err s.world).1
  · left
    refine ⟨_, l ++ [Event.SignalFailure err false], by simp only [Bool.false_eq_true, if_false]; rfl, ?_, ?_, ?_⟩
    · simp [Outcome.state, State.record, hs]
    · simp [List.countP_append, h1, Event.isEntry]
    · simp [List.countP_append, h2, Event.isRetry]
  · right
    refine ⟨_, l ++ [Event.SignalFailure err true], by simp only [if_true]; rfl, ?_, ?_, ?_⟩
    · simp [State.record, hs]
    · simp [List.countP_append, h1, Event.isEntry]
    · simp [List.countP_append, h2, Event.isRetry]

theorem signAndStore_shape (env : Collaborators W)
    (refresh : State W → Option (RefreshOutcome W)) (log0 : List Event)
    (s : State W) (l : List Event) (hs : s.log = log0 ++ l)
    (h1 : l.countP Event.isEntry = 0) (h2 : l.countP Event.isRetry = 0) :
    RefreshShape refresh log0 (signAndStore env refresh s) := by
  unfold signAndStore
  simp only
  split
  · apply onFailure_shape env refresh _ log0 _ (l ++ [_])
    · simp only [State.record, hs, List.append_assoc]; rfl
    · simp [List.countP_append, h1, Event.isEntry]
    · simp [List.countP_append, h2, Event.isRetry]
  · split
    · apply onFailure_shape env refresh _ log0 _ (l ++ [_, _])
      · simp only [State.record, hs, List.append_assoc]; rfl
      · simp [List.countP_append, List.countP_cons, h1, Event.isEntry]
      · simp [List.countP_append, List.countP_cons, h2, Event.isRetry]
    · split
      · apply onFailure_shape env refresh _ log0 _ (l ++ [_, _, _])
        · simp only [State.record, hs, List.append_assoc]; rfl
        · simp [List.countP_append, List.countP_cons, h1, Event.isEntry]
        · simp [List.countP_append, List.countP_cons, h2, Event.isRetry]
      · split
        · split
          · apply onFailure_shape env refresh _ log0 _ (l ++ [_, _, _, _, _])
            · simp only [State.record, hs, List.append_assoc]; rfl
            · simp [List.countP_append, List.countP_cons, h1, Event.isEntry]
            · simp [List.countP_append, List.countP_cons, h2, Event.isRetry]
          · left
            exact ⟨_, l ++ [_, _, _, _, _], rfl,
              by simp only [Outcome.state, State.record, hs, List.append_assoc]; rfl,
              by simp [List.countP_append, List.countP_cons, h1, Event.isEntry],
              by simp [List.countP_append, List.countP_cons, h2, Event.isRetry]⟩
        · left
          exact ⟨_, l ++ [_, _, _, _], rfl,
            by simp only [Outcome.state, State.record, hs, List.append_assoc]; rfl,
            by simp [List.countP_append, List.countP_cons, h1, Event.isEntry],
            by simp [List.countP_append, List.countP_cons, h2, Event.isRetry]⟩

theorem AsyncRefreshKeysWith_shape (env : Collaborators W)
    (refresh : State W → Option (RefreshOutcome W)) (s : State W) :
    RefreshShape refresh s.log (AsyncRefreshKeysWith env refresh s) := by
  unfold AsyncRefreshKeysWith
  obtain ⟨l1, hl1, hq1⟩ := loadOrGenerate_log env s
  rcases hlg : loadOrGenerate env s with ⟨e, s1⟩
  rw [hlg] at hl1
  simp only at hl1
  have hc1 := countP_of_all_isPreparation l1 hq1
  cases e with
  | some e => exact Or.inl ⟨_, l1, rfl, hl1, hc1.1, hc1.2⟩
  | none =>
    obtain ⟨l2, hl2, hq2⟩ := Lifespan_log env s1
    have hc2 := countP_of_all_isPreparation l2 hq2
    have hlog : (Lifespan env s1).state.log = s.log ++ (l1 ++ l2) := by
      rw [hl2, hl1, List.append_assoc]
    have he : (l1 ++ l2).countP Event.isEntry = 0 := by
      rw [List.countP_append, hc1.1, hc2.1]
    have hr : (l1 ++ l2).countP Event.isRetry = 0 := by
      rw [List.countP_append, hc1.2, hc2.2]
    rcases hls : Lifespan env s1 with ⟨⟨remain, lifespan⟩, s3⟩ | s3
    · rw [hls] at hlog
      simp only [Outcome.state] at hlog
      simp only [hls]
      split
      · exact signAndStore_shape env refresh s.log s3 (l1 ++ l2) hlog he hr
      · exact Or.inl ⟨_, l1 ++ l2, rfl, hlog, he, hr⟩
    · rw [hls] at hlog
      simp only [hls]
      exact Or.inl ⟨_, l1 ++ l2, rfl, hlog, he, hr⟩

theorem RefreshKeys_succ_state (env : Collaborators W) (fuel : Nat) (s : State W)
    (o : RefreshOutcome W) (h : RefreshKeys env (fuel + 1) s = some o) :
    ∃ o1 : RefreshOutcome W,
      AsyncRefreshKeysWith env (fun s1 => RefreshKeys env fuel s1)
          (s.record s.world Event.RefreshKeys) = some o1
        ∧ o.state = o1.state := by
  rw [RefreshKeys] at h
  split at h
  · exact absurd h (by simp)
  · next s1 heq =>
    simp only [Option.some.injEq] at h
    exact ⟨_, heq, by rw [← h]⟩
  · next err s1 heq =>
    refine ⟨_, heq, ?_⟩
    split at h <;> simp only [Option.some.injEq] at h <;> subst h <;> rfl

/-- In the log of a finished `RefreshKeys` the first new event is its entry, and
every further entry into `RefreshKeys` is matched by one `SignalFailure`
answered true. -/
theorem RefreshKeys_entries (env : Collaborators W) (fuel : Nat) :
    ∀ (s : State W) (o : RefreshOutcome W), RefreshKeys env fuel s = some o →
      ∃ l : List Event, o.state.log = s.log ++ Event.RefreshKeys :: l
        ∧ l.countP Event.isEntry = l.countP Event.isRetry := by
  induction fuel with
  | zero =>
    intro s o h
    rw [RefreshKeys] at h
    exact absurd h (by simp)
  | succ fuel ih =>
    intro s o h
    obtain ⟨o1, hasync, hstate⟩ := RefreshKeys_succ_state env fuel s o h
    have hshape := AsyncRefreshKeysWith_shape env (fun s1 => RefreshKeys env fuel s1)
      (s.record s.world Event.RefreshKeys)
    rcases hshape with ⟨o2, l, hres, hlog, he, hr⟩ | ⟨s1, l, hres, hlog, he, hr⟩
    · rw [hasync] at hres
      simp only [Option.some.injEq] at hres
      subst hres
      refine ⟨l, ?_, by rw [he, hr]⟩
      rw [hstate, hlog]
      simp [State.record]
    · rw [hasync] at hres
      obtain ⟨l2, hlog2, hcount⟩ := ih s1 o1 hres.symm
      refine ⟨l ++ Event.RefreshKeys :: l2, ?_, ?_⟩
      · rw [hstate, hlog2, hlog]
        simp [State.record]
      · rw [List.countP_append, List.countP_append, List.countP_cons, List.countP_cons,
          he, hr, hcount]
        simp [Event.isEntry, Event.isRetry]
        omega

/-- When `Lifespan` returns a pair with `remain > rotateAt`, it has read the
certificate and the clock and done nothing else. -/
theorem Lifespan_events_of_lt (env : Collaborators W) (s s1 : State W)
    (remain rotateAt : Int) (hl : Lifespan env s = .ret (remain, rotateAt) s1)
    (hlt : rotateAt < remain) :
    newEvents s s1
      = [Event.Certificate (currentCertificate env s), Event.Now (currentTime env s)] := by
  have hreads : newEvents s (afterReads env s)
      = [Event.Certificate (currentCertificate env s), Event.Now (currentTime env s)] := by
    apply newEvents_of_log
    simp [afterReads, State.record]
  cases hc : currentCertificate env s with
  | none =>
    rw [Lifespan_absent env s hc] at hl
    simp only [Outcome.ret.injEq, Prod.mk.injEq] at hl
    omega
  | some cert =>
    by_cases hexp : cert.NotAfter < currentTime env s
    · rw [Lifespan_expired env s cert hc hexp] at hl
      simp only [Outcome.ret.injEq, Prod.mk.injEq] at hl
      omega
    · by_cases hrate : s.tr.CertRefreshDurationRate = 0
      · rw [Lifespan_divZero env s cert hc (by omega) hrate] at hl
        exact absurd hl (by simp)
      · cases hflag : s.tr.manualRevoke
        · rw [Lifespan_live env s cert hc (by omega) hrate hflag] at hl
          simp only [Outcome.ret.injEq, Prod.mk.injEq] at hl
          rw [← hl.2]
          rw [hc] at hreads
          exact hreads
        · rw [Lifespan_revoked env s cert hc (by omega) hrate hflag] at hl
          simp only [Outcome.ret.injEq, Prod.mk.injEq] at hl
          omega

/-- C7: let `Lifespan` return the pair `(remain, rotateAt)` and leave state `s1`.
If `remain > rotateAt`, `AutoUpdate` returns nil in that very state `s1`: beyond
the two reads of `Lifespan` (certificate and clock) it calls nothing, neither
`RefreshKeys` nor provider, authority or backoff.  If `remain <= rotateAt`
(which covers `(0, 0)`), `AutoUpdate` runs `RefreshKeys` from `s1`: it returns
exactly when that run returns, the first event after `Lifespan` is the entry
into `RefreshKeys`, every further entry in the log of that run is matched by a
`SignalFailure` answered true (the retry inside `AsyncRefreshKeys`, not a call
of `AutoUpdate`), and after that run `AutoUpdate` calls only the backoff
policy. -/
theorem C7_AutoUpdate_rotation_decision (env : Collaborators W) (fuel : Nat)
    (s s1 : State W) (remain rotateAt : Int)
    (hl : Lifespan env s = .ret (remain, rotateAt) s1) :
    (rotateAt < remain →
        AutoUpdate env fuel s = some (.ret none s1)
          ∧ newEvents s s1
              = [Event.Certificate (currentCertificate env s), Event.Now (currentTime env s)])
      ∧ (remain ≤ rotateAt →
          (AutoUpdate env fuel s = none ↔ RefreshKeys env fuel s1 = none)
            ∧ ∀ out : RefreshOutcome W, AutoUpdate env fuel s = some out →
                ∃ (o : RefreshOutcome W) (l b : List Event),
                  RefreshKeys env fuel s1 = some o
                    ∧ o.state.log = s1.log ++ Event.RefreshKeys :: l
                    ∧ l.countP Event.isEntry = l.countP Event.isRetry
                    ∧ out.state.log = o.state.log ++ b
                    ∧ b.all Event.isBackoff = true) := by
  constructor
  · intro hlt
    refine ⟨?_, Lifespan_events_of_lt env s s1 remain rotateAt hl hlt⟩
    unfold AutoUpdate
    rw [hl]
    simp only [gt_iff_lt, if_pos hlt]
  · intro hdue
    have hau : AutoUpdate env fuel s
        = match RefreshKeys env fuel s1 with
          | none => none
          | some (.panic s2) => some (.panic s2)
          | some (.ret (some err) s2) =>
            some (.ret (some err) (s2.record (env.BackoffDuration s2.world).2
              (Event.BackoffDuration (env.BackoffDuration s2.world).1)))
          | some (.ret none s2) =>
            some (.ret none (s2.record (env.BackoffReset s2.world) Event.BackoffReset)) := by
      unfold AutoUpdate
      rw [hl]
      simp only [gt_iff_lt, if_neg (not_lt.mpr hdue)]
    constructor
    · rw [hau]
      constructor
      · intro h
        split at h <;> first | assumption | exact absurd h (by simp)
      · intro h
        rw [h]
    · intro out hout
      rw [hau] at hout
      rcases hrk : RefreshKeys env fuel s1 with _ | o
      · rw [hrk] at hout
        exact absurd hout (by simp)
      · obtain ⟨l, hlog, hcount⟩ := RefreshKeys_entries env fuel s1 o hrk
        rw [hrk] at hout
        rcases o with ⟨_ | err, s2⟩ | s2
        · simp only [Option.some.injEq] at hout
          exact ⟨_, l, [Event.BackoffReset], rfl, hlog, hcount, by rw [← hout]; rfl, rfl⟩
        · simp only [Option.some.injEq] at hout
          exact ⟨_, l, [Event.BackoffDuration (env.BackoffDuration s2.world).1], rfl, hlog,
            hcount, by rw [← hout]; rfl, rfl⟩
        · simp only [Option.some.injEq] at hout
          exact ⟨_, l, [], rfl, hlog, hcount, by rw [← hout]; simp, rfl⟩

/-- C7 at the in-memory collaborators: with a certificate valid from 0 to 100 read
at time 10 (`remain = 90 > rotateAt = 50`) the tick returns nil after the two
reads of `Lifespan`; with no certificate (`(0, 0)`) the tick runs `RefreshKeys`
once and then resets the backoff policy. -/
theorem C7_AutoUpdate_rotation_decision_witness :
    (AutoUpdate fakeEnv 1 (fakeState readyWorld) = some (.ret none (fakeAfterLifespan readyWorld))
        ∧ newEvents (fakeState readyWorld) (fakeAfterLifespan readyWorld)
            = [Event.Certificate (some { NotBefore := 0, NotAfter := 100 }), Event.Now 10])
      ∧ (∃ (o : RefreshOutcome FakeWorld) (l b : List Event),
          RefreshKeys fakeEnv 1 (fakeAfterLifespan emptyWorld) = some o
            ∧ o.state.log = (fakeAfterLifespan emptyWorld).log ++ Event.RefreshKeys :: l
            ∧ l.countP Event.isEntry = l.countP Event.isRetry
            ∧ (fakeAfterRefresh emptyWorld).log ++ [Event.BackoffReset] = o.state.log ++ b
            ∧ b.all Event.isBackoff = true) :=
  ⟨(C7_AutoUpdate_rotation_decision fakeEnv 1 (fakeState readyWorld)
      (fakeAfterLifespan readyWorld) 90 50 (by decide)).1 (by decide),
   ((C7_AutoUpdate_rotation_decision fakeEnv 1 (fakeState emptyWorld)
      (fakeAfterLifespan emptyWorld) 0 0 (by decide)).2 (by decide)).2
      (.ret none ((fakeAfterRefresh emptyWorld).record
        (fakeEnv.BackoffReset (fakeAfterRefresh emptyWorld).world) Event.BackoffReset))
      (by decide)⟩

end Caclient
